import Mathlib

/-!
Shallow embedding of the financial core of `src/main.py` (Crypto SIP Calculator API):
the `/api/projection` endpoint (`projection`) and the computational core of the
`/api/cagr` endpoint (`get_cagr`, taking the already-fetched price list as input,
mirroring lines 133-159 of the source).  Python machine floats are idealised as
real numbers; Python `round` (banker's rounding, `pyRound`), `round(x, 2)`
(`round2`) and `int` truncation (`pyInt`) are modelled explicitly.  Python code
that can raise is embedded into `Except`; code with no raising path is embedded
as a total function.
-/

namespace CryptoSip

/-- Python `round(x)` on a float: round half to even (banker's rounding). -/
noncomputable def pyRound (x : ℝ) : ℤ :=
  if x - ⌊x⌋ < 1 / 2 then ⌊x⌋
  else if 1 / 2 < x - ⌊x⌋ then ⌊x⌋ + 1
  else if Even ⌊x⌋ then ⌊x⌋ else ⌊x⌋ + 1

/-- Python `int(x)` on a float: truncation toward zero. -/
noncomputable def pyInt (x : ℝ) : ℤ :=
  if 0 ≤ x then ⌊x⌋ else ⌈x⌉

/-- Python `round(x, 2)`: round to 2 fractional digits, half to even. -/
noncomputable def round2 (x : ℝ) : ℝ := (pyRound (x * 100) : ℝ) / 100

/-- `frequency` field of `ProjectionRequest` (main.py line 31). -/
inductive Freq
  | monthly
  | yearly
  deriving DecidableEq

/-- `type` field of `ProjectionRequest` (main.py line 27). -/
inductive PType
  | sip
  | lump
  deriving DecidableEq

/-- `ProjectionRequest` (main.py lines 26-31), fields idealised over ℝ. -/
structure ProjectionRequest where
  type : PType
  amount : ℝ
  years : ℝ
  cagr : ℝ
  frequency : Freq

/-- The pydantic `Field` constraints of `ProjectionRequest` (main.py lines 28-30):
`amount > 0`, `0 < years ≤ 70`, `-0.99 ≤ cagr ≤ 10`. -/
def ProjectionRequest.Valid (req : ProjectionRequest) : Prop :=
  0 < req.amount ∧ 0 < req.years ∧ req.years ≤ 70 ∧ -0.99 ≤ req.cagr ∧ req.cagr ≤ 10

/-- `ProjectionPoint` (main.py lines 34-37). -/
structure ProjectionPoint where
  year : ℤ
  invested : ℝ
  value : ℝ

/-- `ProjectionResponse` (main.py lines 40-46). -/
structure ProjectionResponse where
  total_invested : ℝ
  final_value : ℝ
  profit : ℝ
  cagr : ℝ
  years : ℝ
  series : List ProjectionPoint

/-- The monthly periodic rate `(1 + rate_annual) ** (1 / 12) - 1`
(main.py lines 167 and 195); real power is `Real.rpow`, which coincides with
Python `**` for a nonnegative base `1 + a`.  For `1 + a < 0` Python instead
produces a complex-typed value; that region is modelled separately by
`pyPowFrac`/`lineRate` below and is never reached from a validated request. -/
noncomputable def monthlyRate (a : ℝ) : ℝ := (1 + a) ^ ((1 : ℝ) / 12) - 1

/-- The per-period rate `r` selected in main.py lines 166-172. -/
noncomputable def perRate (req : ProjectionRequest) : ℝ :=
  match req.frequency with
  | .monthly => monthlyRate req.cagr
  | .yearly => req.cagr

/-- The period count `n` selected in main.py lines 168 and 173:
`int(round(years * 12))` for monthly, `int(round(years))` for yearly. -/
noncomputable def nPeriods (req : ProjectionRequest) : ℤ :=
  match req.frequency with
  | .monthly => pyRound (req.years * 12)
  | .yearly => pyRound req.years

/-- `label_div` (main.py lines 170 and 175). -/
def labelDiv (f : Freq) : ℕ :=
  match f with
  | .monthly => 12
  | .yearly => 1

/-- `months_total = n if req.frequency == "monthly" else n * 12` (main.py line 194). -/
noncomputable def monthsTotal (req : ProjectionRequest) : ℤ :=
  match req.frequency with
  | .monthly => nPeriods req
  | .yearly => nPeriods req * 12

/-- `r_month = r if req.frequency == "monthly" else (1 + rate_annual) ** (1 / 12) - 1`
(main.py line 195). -/
noncomputable def sipRMonth (req : ProjectionRequest) : ℝ :=
  match req.frequency with
  | .monthly => perRate req
  | .yearly => monthlyRate req.cagr

/-- The SIP loop of main.py lines 196-200, run for the given number of months,
returning `(invested, value, series)`.  The deposit is credited and then growth
applied as `value * (1 + r_month) + amount`; a point is emitted whenever the
month index is divisible by 12, with `year = m // 12`. -/
noncomputable def sipLoop (amount r : ℝ) : ℕ → ℝ × ℝ × List ProjectionPoint
  | 0 => (0, 0, [])
  | m + 1 =>
    let p := sipLoop amount r m
    let inv := p.1 + amount
    let v := p.2.1 * (1 + r) + amount
    (inv, v,
      if (m + 1) % 12 = 0 then p.2.2 ++ [⟨(((m + 1) / 12 : ℕ) : ℤ), inv, v⟩] else p.2.2)

/-- The lump-sum yearly series of main.py lines 184-188:
`for y in range(1, int(round(years)) + 1): v = invested * (1 + r) ** (y * label_div)`. -/
noncomputable def lumpSeries (req : ProjectionRequest) : List ProjectionPoint :=
  (List.range (pyRound req.years).toNat).map fun i =>
    ⟨((i + 1 : ℕ) : ℤ), req.amount,
      req.amount * (1 + perRate req) ^ ((i + 1) * labelDiv req.frequency)⟩

/-- The `/api/projection` handler body (main.py lines 162-211), on the domain
`0 ≤ 1 + cagr` (which every validated request satisfies), where the Python code
has no raising path and the handler is a total function.  For `1 + cagr < 0`
the rate on line 167 becomes complex-typed and the handler raises a pydantic
ValidationError downstream; that region is modelled separately by
`pyPowFrac`/`lineRate`/`pydanticFloatField` below.  The final value in lump
mode is `invested * (1 + r) ** n` (the `if`/`else` on line 183 computes the
same expression in both branches). -/
noncomputable def projection (req : ProjectionRequest) : ProjectionResponse :=
  let ivs : ℝ × ℝ × List ProjectionPoint :=
    match req.type with
    | .lump =>
      (req.amount, req.amount * (1 + perRate req) ^ nPeriods req, lumpSeries req)
    | .sip => sipLoop req.amount (sipRMonth req) (monthsTotal req).toNat
  { total_invested := round2 ivs.1
    final_value := round2 ivs.2.1
    profit := round2 (ivs.2.1 - ivs.1)
    cagr := req.cagr
    years := req.years
    series := ivs.2.2 }

/-- The full-precision invested total of the selected mode, before the boundary
rounding of main.py lines 204-211. -/
noncomputable def fullInvested (req : ProjectionRequest) : ℝ :=
  match req.type with
  | .lump => req.amount
  | .sip => (sipLoop req.amount (sipRMonth req) (monthsTotal req).toNat).1

/-- The full-precision final value of the selected mode, before the boundary
rounding of main.py lines 204-211. -/
noncomputable def fullValue (req : ProjectionRequest) : ℝ :=
  match req.type with
  | .lump => req.amount * (1 + perRate req) ^ nPeriods req
  | .sip => (sipLoop req.amount (sipRMonth req) (monthsTotal req).toNat).2.1

/-- The series built by the selected mode, exactly as accumulated by the loops of
main.py lines 184-200 (no rounding is ever applied to series entries). -/
noncomputable def rawSeries (req : ProjectionRequest) : List ProjectionPoint :=
  match req.type with
  | .lump => lumpSeries req
  | .sip => (sipLoop req.amount (sipRMonth req) (monthsTotal req).toNat).2.2

/-- The exception that `end_price / start_price` raises in Python when
`start_price == 0.0` (main.py line 139). -/
inductive PyError
  | zeroDivision
  deriving DecidableEq

/-- The result dictionary of `/api/cagr` (main.py lines 135 and 151-159), with
the pass-through `coin_id`/`currency` strings omitted.  Fields absent from the
insufficient-data dictionary are `none`. -/
structure CagrResult where
  years : ℝ
  cagr : Option ℝ
  error : Option String
  start_price : Option ℝ
  end_price : Option ℝ
  series : Option (List (ℤ × ℝ))

/-- The strided year-end series of main.py lines 142-148:
`for i in range(0, len(prices), 365)`, `idx_year = min(i, len(prices) - 1)`,
`year_number = int(round(idx_year / 365))`. -/
noncomputable def cagrSeriesPoints (prices : List (ℝ × ℝ)) : List (ℤ × ℝ) :=
  (List.range ((prices.length + 364) / 365)).map fun j =>
    let idx := min (j * 365) (prices.length - 1)
    (pyRound ((idx : ℝ) / 365), (prices.getD idx (0, 0)).2)

/-- The computational core of `/api/cagr` (main.py lines 133-159), taking the
fetched `prices` list and the `years` query value.  The division on line 139
raises `ZeroDivisionError` when `start_price == 0`, hence the `Except`; every
other path returns a result dictionary.  The final series point appended on
line 149 is `(int(years), end_price)`. -/
noncomputable def get_cagr (prices : List (ℝ × ℝ)) (years : ℝ) :
    Except PyError CagrResult :=
  if prices.length < 2 then
    .ok { years := years, cagr := none, error := some "Insufficient data",
          start_price := none, end_price := none, series := none }
  else
    let start_price := (prices.getD 0 (0, 0)).2
    let end_price := (prices.getLast?.getD (0, 0)).2
    if start_price = 0 then .error .zeroDivision
    else
      .ok { years := years,
            cagr := some ((end_price / start_price) ^ ((1 : ℝ) / years) - 1),
            error := none,
            start_price := some start_price,
            end_price := some end_price,
            series := some (cagrSeriesPoints prices ++ [(pyInt years, end_price)]) }

/-- The `series` field of a `/api/cagr` outcome, when one was produced. -/
def cagrSeries : Except PyError CagrResult → Option (List (ℤ × ℝ))
  | .ok r => r.series
  | .error _ => none

/-- The spec's DomainError (spec §4.1 / §7, "Arithmetic edge case"). -/
inductive DomainError
  | domainError
  deriving DecidableEq

/-- Modelled from the spec: the §4.1 RateConverter, including the
`1 + a < 0` DomainError guard that the spec describes but that is absent from
the code (main.py line 167 computes the power unconditionally). -/
noncomputable def rateConverterSpec (a : ℝ) (k : ℕ) : Except DomainError ℝ :=
  if 1 + a < 0 then .error .domainError
  else .ok ((1 + a) ^ ((1 : ℝ) / (k : ℝ)) - 1)

/-- The error pydantic raises when a non-float value reaches a `float` field of
`ProjectionPoint`/`ProjectionResponse` (as happens on main.py line 188 once the
rate of line 167 is complex-typed). -/
inductive ProjError
  | validation
  deriving DecidableEq

/-- A Python numeric value as the handler's arithmetic produces it: a `float`,
or a `complex`-typed value.  A pydantic `float` field rejects a complex-typed
value whatever its imaginary part (`float(complex)` raises `TypeError`). -/
inductive PyNum
  | float (x : ℝ)
  | complexVal (z : ℂ)

/-- Whether a Python numeric value is complex-typed. -/
def PyNum.isComplexTyped : PyNum → Bool
  | .float _ => false
  | .complexVal _ => true

/-- Python `v + c` for a numeric `v` and a float `c`: the type of `v`
propagates through the sum. -/
noncomputable def PyNum.addFloat : PyNum → ℝ → PyNum
  | .float x, c => .float (x + c)
  | .complexVal z, c => .complexVal (z + (c : ℂ))

/-- Python `x ** y` for a float base `x` and a non-integral float exponent `y`:
a float (`Real.rpow`) for `0 ≤ x`; for `x < 0` CPython falls back to the
principal-branch complex power (`Complex.cpow` with the principal logarithm),
returning a complex-typed value rather than raising. -/
noncomputable def pyPowFrac (x y : ℝ) : PyNum :=
  if 0 ≤ x then .float (x ^ y) else .complexVal ((x : ℂ) ^ (y : ℂ))

/-- Main.py line 167, `r = (1 + rate_annual) ** (1 / 12) - 1`, over the full
input domain, with the Python result type tracked. -/
noncomputable def lineRate (a : ℝ) : PyNum :=
  (pyPowFrac (1 + a) ((1 : ℝ) / 12)).addFloat (-1)

/-- Main.py line 187, `v = invested * ((1 + r) ** periods)`, with the Python
type of the base `1 + r` tracked: a complex-typed base makes the series point
value complex-typed (`complex ** int` and `float * complex` are complex). -/
noncomputable def lumpPointValue (amount : ℝ) (base : PyNum) (periods : ℕ) : PyNum :=
  match base with
  | .float x => .float (amount * x ^ periods)
  | .complexVal z => .complexVal ((amount : ℂ) * z ^ periods)

/-- Pydantic's validation of a `float` field: accepts a float, raises a
ValidationError on a complex-typed value. -/
def pydanticFloatField : PyNum → Except ProjError ℝ
  | .float x => .ok x
  | .complexVal _ => .error .validation

/-! ### Helper lemmas about the Python rounding primitives -/

theorem floor_eq_of_bounds (x : ℝ) (n : ℤ) (h1 : (n : ℝ) ≤ x) (h2 : x < n + 1) :
    ⌊x⌋ = n :=
  Int.floor_eq_iff.mpr ⟨h1, h2⟩

theorem pyRound_of_lt (x : ℝ) (n : ℤ) (hn : ⌊x⌋ = n) (h : x - n < 1 / 2) :
    pyRound x = n := by
  unfold pyRound
  rw [hn, if_pos h]

theorem pyRound_of_gt (x : ℝ) (n : ℤ) (hn : ⌊x⌋ = n) (h : 1 / 2 < x - n) :
    pyRound x = n + 1 := by
  unfold pyRound
  rw [hn, if_neg (by linarith), if_pos h]

theorem pyRound_of_half_even (x : ℝ) (n : ℤ) (hn : ⌊x⌋ = n) (h : x - n = 1 / 2)
    (he : Even n) : pyRound x = n := by
  unfold pyRound
  rw [hn, if_neg (by linarith), if_neg (by linarith), if_pos he]

theorem pyRound_intCast (n : ℤ) : pyRound ((n : ℤ) : ℝ) = n := by
  refine pyRound_of_lt _ n (Int.floor_intCast n) ?_
  norm_num

theorem pyRound_eq_int (x : ℝ) (n : ℤ) (h : x = (n : ℝ)) : pyRound x = n := by
  rw [h]; exact pyRound_intCast n

theorem pyRound_zero : pyRound (0 : ℝ) = 0 :=
  pyRound_eq_int 0 0 (by norm_num)

theorem le_half_of_pyRound_eq_zero (x : ℝ) (hx : 0 ≤ x) (h : pyRound x = 0) :
    x ≤ 1 / 2 := by
  have hfl : (0 : ℤ) ≤ ⌊x⌋ := Int.floor_nonneg.mpr hx
  have hle : (⌊x⌋ : ℝ) ≤ x := Int.floor_le x
  unfold pyRound at h
  split_ifs at h with h1 h2 h3
  · have : (⌊x⌋ : ℝ) = 0 := by exact_mod_cast h
    linarith
  · omega
  · have : (⌊x⌋ : ℝ) = 0 := by exact_mod_cast h
    have hx2 : x - ⌊x⌋ = 1 / 2 := le_antisymm (not_lt.mp h2) (not_lt.mp h1)
    linarith
  · omega

theorem pyRound_eq_zero_of_lt (x : ℝ) (h0 : 0 ≤ x) (h : x < 1 / 2) :
    pyRound x = 0 := by
  refine pyRound_of_lt x 0 (floor_eq_of_bounds x 0 (by exact_mod_cast h0) (by norm_num; linarith)) ?_
  norm_num [h]

theorem round2_of_pyRound (x : ℝ) (n : ℤ) (h : pyRound (x * 100) = n) :
    round2 x = (n : ℝ) / 100 := by
  rw [round2, h]

theorem round2_of_int (x : ℝ) (n : ℤ) (h : x * 100 = ((n : ℤ) : ℝ)) :
    round2 x = (n : ℝ) / 100 := by
  rw [round2, pyRound_eq_int _ n h]

/-- `invested` after `m` iterations of the SIP loop is exactly `m * amount`
(the loop only ever executes `invested += amount`). -/
theorem sipLoop_fst (amount r : ℝ) (m : ℕ) : (sipLoop amount r m).1 = m * amount := by
  induction m with
  | zero => simp [sipLoop]
  | succ k ih =>
    simp only [sipLoop, ih]
    push_cast
    ring

theorem round2_zero : round2 (0 : ℝ) = 0 := by
  rw [round2, pyRound_eq_int _ 0 (by norm_num)]
  norm_num

/-- On the domain `0 ≤ 1 + a` (satisfied by every validated request) the
type-tracked rate of line 167 is a float and agrees with the real-valued
`monthlyRate` used by the main embedding. -/
theorem lineRate_float (a : ℝ) (h : 0 ≤ 1 + a) :
    lineRate a = .float (monthlyRate a) := by
  rw [lineRate, pyPowFrac, if_pos h]
  simp only [PyNum.addFloat, monthlyRate, PyNum.float.injEq]
  ring

/-- Field-level description of a lump-sum response. -/
theorem projection_lump_fields (req : ProjectionRequest) (h : req.type = .lump) :
    (projection req).total_invested = round2 req.amount
  ∧ (projection req).final_value
      = round2 (req.amount * (1 + perRate req) ^ nPeriods req)
  ∧ (projection req).profit
      = round2 (req.amount * (1 + perRate req) ^ nPeriods req - req.amount)
  ∧ (projection req).series = lumpSeries req := by
  obtain ⟨t, am, yr, a, f⟩ := req
  simp only at h
  subst h
  simp [projection]

/-- Field-level description of a SIP response. -/
theorem projection_sip_fields (req : ProjectionRequest) (h : req.type = .sip) :
    (projection req).total_invested
      = round2 ((sipLoop req.amount (sipRMonth req) (monthsTotal req).toNat).1)
  ∧ (projection req).final_value
      = round2 ((sipLoop req.amount (sipRMonth req) (monthsTotal req).toNat).2.1)
  ∧ (projection req).profit
      = round2 ((sipLoop req.amount (sipRMonth req) (monthsTotal req).toNat).2.1
          - (sipLoop req.amount (sipRMonth req) (monthsTotal req).toNat).1)
  ∧ (projection req).series
      = (sipLoop req.amount (sipRMonth req) (monthsTotal req).toNat).2.2 := by
  obtain ⟨t, am, yr, a, f⟩ := req
  simp only at h
  subst h
  simp [projection]

/-! ### Claim theorems -/

/-- C9: for every periodic (SIP) projection, after any number `m` of iterated
months the accumulated invested total equals `amount × m` exactly. -/
theorem sip_invested_exact (amount r : ℝ) (m : ℕ) :
    (sipLoop amount r m).1 = m * amount :=
  sipLoop_fst amount r m

/-- C7: for every projection request, the response's `total_invested`,
`final_value` and `profit` are the full-precision mode results rounded to
2 digits only at the response boundary, with `profit` computed as the
full-precision `value - invested` before rounding; `cagr` and `years` are
passed through unrounded. -/
theorem response_rounding_boundary (req : ProjectionRequest) :
    (projection req).total_invested = round2 (fullInvested req)
  ∧ (projection req).final_value = round2 (fullValue req)
  ∧ (projection req).profit = round2 (fullValue req - fullInvested req)
  ∧ (projection req).cagr = req.cagr
  ∧ (projection req).years = req.years := by
  obtain ⟨t, am, yr, a, f⟩ := req
  cases t <;> simp [projection, fullInvested, fullValue]

/-- C1: for every lump-sum request, each emitted series point's value equals
`amount * (1 + a) ^ year` whether the frequency is monthly or yearly, so the
two frequencies produce the same series values. -/
theorem lump_monthly_yearly_series_agree (amount years a : ℝ) (ha : -0.99 ≤ a) :
    ((projection ⟨.lump, amount, years, a, .monthly⟩).series.map ProjectionPoint.value
       = (List.range (pyRound years).toNat).map fun i => amount * (1 + a) ^ (i + 1))
  ∧ ((projection ⟨.lump, amount, years, a, .yearly⟩).series.map ProjectionPoint.value
       = (List.range (pyRound years).toNat).map fun i => amount * (1 + a) ^ (i + 1)) := by
  have h1a : (0 : ℝ) ≤ 1 + a := by linarith
  have hb : 1 + monthlyRate a = (1 + a) ^ ((1 : ℝ) / 12) := by
    rw [monthlyRate]; ring
  have key : ∀ i : ℕ, (1 + monthlyRate a) ^ ((i + 1) * 12) = (1 + a) ^ (i + 1) := by
    intro i
    rw [hb, ← Real.rpow_natCast ((1 + a) ^ ((1 : ℝ) / 12)) ((i + 1) * 12),
      ← Real.rpow_mul h1a]
    have hc : (1 : ℝ) / 12 * (((i + 1) * 12 : ℕ) : ℝ) = ((i + 1 : ℕ) : ℝ) := by
      push_cast; ring
    rw [hc, Real.rpow_natCast]
  constructor
  · simp only [projection, lumpSeries, perRate, labelDiv, List.map_map]
    refine List.map_congr_left fun i _ => ?_
    simp [key i]
  · simp only [projection, lumpSeries, perRate, labelDiv, List.map_map]
    refine List.map_congr_left fun i _ => ?_
    simp

/-- Witness for C1 at `amount = 1000`, `years = 3`, `a = 0.1`. -/
theorem lump_monthly_yearly_series_agree_witness :
    (-0.99 : ℝ) ≤ 0.1
  ∧ (((projection ⟨.lump, 1000, 3, 0.1, .monthly⟩).series.map ProjectionPoint.value
       = (List.range (pyRound (3 : ℝ)).toNat).map fun i => 1000 * (1 + 0.1) ^ (i + 1))
  ∧ ((projection ⟨.lump, 1000, 3, 0.1, .yearly⟩).series.map ProjectionPoint.value
       = (List.range (pyRound (3 : ℝ)).toNat).map fun i => 1000 * (1 + 0.1) ^ (i + 1))) :=
  ⟨by norm_num, lump_monthly_yearly_series_agree 1000 3 0.1 (by norm_num)⟩

/-- C8: a price series of length 0 or 1 yields a result object with
`cagr = null` and the "Insufficient data" reason, and no exception. -/
theorem cagr_insufficient_data (prices : List (ℝ × ℝ)) (years : ℝ)
    (h : prices.length < 2) :
    get_cagr prices years =
      .ok { years := years, cagr := none, error := some "Insufficient data",
            start_price := none, end_price := none, series := none } := by
  rw [get_cagr, if_pos h]

/-- Witness for C8 at the empty price list. -/
theorem cagr_insufficient_data_witness :
    ([] : List (ℝ × ℝ)).length < 2
  ∧ get_cagr ([] : List (ℝ × ℝ)) 5 =
      .ok { years := 5, cagr := none, error := some "Insufficient data",
            start_price := none, end_price := none, series := none } :=
  ⟨by decide, cagr_insufficient_data [] 5 (by decide)⟩

/-- C4 (code bug): with at least 2 samples and `start_price == 0`, the CAGR
division on main.py line 139 raises `ZeroDivisionError` instead of returning
a result object with a null rate, contradicting the error-object convention
the same handler uses for its other failure modes (lines 131-135). -/
theorem cagr_zero_start_price_raises :
    get_cagr [((0 : ℝ), (0 : ℝ)), (1, 100)] 5 = .error .zeroDivision := by
  simp [get_cagr]

/-- C5 (amended): with at least 2 samples and a nonzero start price, the
decimated series always ends with an appended final point whose year is
`int(horizon)` (truncation toward zero, main.py line 149) and whose price is
`end_price`, even if it duplicates the last strided point. -/
theorem cagr_final_point_truncated_year (prices : List (ℝ × ℝ)) (years : ℝ)
    (h2 : 2 ≤ prices.length) (hs : (prices.getD 0 (0, 0)).2 ≠ 0) :
    ∃ s, cagrSeries (get_cagr prices years) = some s
      ∧ s ≠ []
      ∧ s.getLast? = some (pyInt years, (prices.getLast?.getD (0, 0)).2) := by
  refine ⟨cagrSeriesPoints prices ++ [(pyInt years, (prices.getLast?.getD (0, 0)).2)],
    ?_, by simp, List.getLast?_concat _⟩
  simp only [get_cagr]
  rw [if_neg (by omega), if_neg hs]
  rfl

/-- Witness for C5 (amended) at `prices = [(0, 100), (1, 200)]`, `years = 5`. -/
theorem cagr_final_point_truncated_year_witness :
    2 ≤ ([((0 : ℝ), (100 : ℝ)), (1, 200)]).length
  ∧ ∃ s, cagrSeries (get_cagr [((0 : ℝ), (100 : ℝ)), (1, 200)] 5) = some s
      ∧ s ≠ []
      ∧ s.getLast? = some (pyInt 5,
          (([((0 : ℝ), (100 : ℝ)), (1, 200)]).getLast?.getD (0, 0)).2) :=
  ⟨by norm_num, cagr_final_point_truncated_year [((0 : ℝ), (100 : ℝ)), (1, 200)] 5
    (by norm_num) (by norm_num)⟩

/-- C5 (counterexample): at `prices = [(0, 100), (1, 200)]` and horizon 2.7 the
appended final point is `(2, 200)` — year `int(2.7) = 2`, not
`round(2.7) = 3` as the claim states. -/
theorem cagr_final_point_counterexample :
    cagrSeries (get_cagr [((0 : ℝ), (100 : ℝ)), (1, 200)] 2.7)
      = some [(0, 100), (2, 200)]
  ∧ pyRound (2.7 : ℝ) = 3
  ∧ (2 : ℤ) ≠ 3 := by
  have hfloor : ⌊(2.7 : ℝ)⌋ = 2 := floor_eq_of_bounds _ 2 (by norm_num) (by norm_num)
  have hint : pyInt (2.7 : ℝ) = 2 := by
    rw [pyInt, if_pos (by norm_num)]; exact hfloor
  have hr1 : List.range 1 = [0] := rfl
  have hpts : cagrSeriesPoints [((0 : ℝ), (100 : ℝ)), (1, 200)] = [(0, 100)] := by
    norm_num [cagrSeriesPoints, hr1, pyRound_zero]
  refine ⟨?_, (pyRound_of_gt (2.7 : ℝ) 2 hfloor (by norm_num)).trans (by norm_num),
    by decide⟩
  simp only [get_cagr]
  rw [if_neg (by norm_num), if_neg (by norm_num)]
  simp [cagrSeries, hpts, hint]

/-- C2 (amended): every periodic (SIP) projection uses the monthly periodic
rate `(1 + a) ^ (1/12) - 1` as the per-contribution growth rate regardless of
the requested frequency, and iterates the recurrence over
`round(horizon * 12)` months for monthly frequency but `round(horizon) * 12`
months for yearly frequency (these agree only when the horizon rounds
losslessly); the full-precision state is the SIP recurrence over that many
months. -/
theorem sip_monthly_rate_and_months (req : ProjectionRequest)
    (ht : req.type = .sip) :
    sipRMonth req = monthlyRate req.cagr
  ∧ (req.frequency = .monthly → monthsTotal req = pyRound (req.years * 12))
  ∧ (req.frequency = .yearly → monthsTotal req = pyRound req.years * 12)
  ∧ fullInvested req
      = (sipLoop req.amount (monthlyRate req.cagr) (monthsTotal req).toNat).1
  ∧ fullValue req
      = (sipLoop req.amount (monthlyRate req.cagr) (monthsTotal req).toNat).2.1 := by
  obtain ⟨t, am, yr, a, f⟩ := req
  simp only at ht
  subst ht
  cases f <;>
    simp [sipRMonth, monthsTotal, nPeriods, fullInvested, fullValue, perRate]

/-- Witness for C2 (amended) at the SIP request (100, 2.5 years, 10%, yearly). -/
theorem sip_monthly_rate_and_months_witness :
    (⟨.sip, 100, 2.5, 0.1, .yearly⟩ : ProjectionRequest).type = .sip
  ∧ (sipRMonth ⟨.sip, 100, 2.5, 0.1, .yearly⟩ = monthlyRate 0.1
  ∧ ((⟨.sip, 100, 2.5, 0.1, .yearly⟩ : ProjectionRequest).frequency = .monthly →
      monthsTotal ⟨.sip, 100, 2.5, 0.1, .yearly⟩ = pyRound ((2.5 : ℝ) * 12))
  ∧ ((⟨.sip, 100, 2.5, 0.1, .yearly⟩ : ProjectionRequest).frequency = .yearly →
      monthsTotal ⟨.sip, 100, 2.5, 0.1, .yearly⟩ = pyRound (2.5 : ℝ) * 12)
  ∧ fullInvested ⟨.sip, 100, 2.5, 0.1, .yearly⟩
      = (sipLoop 100 (monthlyRate 0.1)
          (monthsTotal ⟨.sip, 100, 2.5, 0.1, .yearly⟩).toNat).1
  ∧ fullValue ⟨.sip, 100, 2.5, 0.1, .yearly⟩
      = (sipLoop 100 (monthlyRate 0.1)
          (monthsTotal ⟨.sip, 100, 2.5, 0.1, .yearly⟩).toNat).2.1) :=
  ⟨rfl, sip_monthly_rate_and_months ⟨.sip, 100, 2.5, 0.1, .yearly⟩ rfl⟩

/-- C2 (counterexample): at a SIP request with horizon 2.5 years and yearly
frequency the code iterates `round(2.5) * 12 = 24` months, investing 2400 in
total, whereas `round(2.5 * 12) = 30` months of contributions of 100 would
invest 3000. -/
theorem sip_months_total_counterexample :
    monthsTotal ⟨.sip, 100, 2.5, 0.1, .yearly⟩ = 24
  ∧ pyRound ((2.5 : ℝ) * 12) = 30
  ∧ (projection ⟨.sip, 100, 2.5, 0.1, .yearly⟩).total_invested = 2400
  ∧ (100 : ℝ) * 30 = 3000
  ∧ (2400 : ℝ) ≠ 3000 := by
  have h25 : pyRound (2.5 : ℝ) = 2 :=
    pyRound_of_half_even _ 2 (floor_eq_of_bounds _ 2 (by norm_num) (by norm_num))
      (by norm_num) (by decide)
  have hmt : monthsTotal ⟨.sip, 100, 2.5, 0.1, .yearly⟩ = 24 := by
    simp [monthsTotal, nPeriods, h25]
  refine ⟨hmt, pyRound_eq_int _ 30 (by norm_num), ?_, by norm_num, by norm_num⟩
  have hproj : (projection ⟨.sip, 100, 2.5, 0.1, .yearly⟩).total_invested
      = round2 ((sipLoop 100 (sipRMonth ⟨.sip, 100, 2.5, 0.1, .yearly⟩)
          (monthsTotal ⟨.sip, 100, 2.5, 0.1, .yearly⟩).toNat).1) := by
    simp [projection]
  rw [hproj, hmt, sipLoop_fst,
    round2_of_int _ 240000 (by norm_num [show ((24 : ℤ).toNat : ℕ) = 24 from rfl])]
  norm_num

/-- C3 (amended): if the horizon resolves to zero periods, the engine returns
an empty series and does not raise (the embedding is a total function); in
periodic mode total invested, final value and profit are all 0, but in
lump-sum mode total invested and final value both equal the rounded amount
(profit is 0). -/
theorem zero_periods_behavior (req : ProjectionRequest) (h0 : 0 < req.years)
    (hz : nPeriods req = 0) :
    (projection req).series = []
  ∧ (req.type = .sip → (projection req).total_invested = 0
      ∧ (projection req).final_value = 0 ∧ (projection req).profit = 0)
  ∧ (req.type = .lump → (projection req).total_invested = round2 req.amount
      ∧ (projection req).final_value = round2 req.amount
      ∧ (projection req).profit = 0) := by
  obtain ⟨t, am, yr, a, f⟩ := req
  simp only at h0 hz ⊢
  have hy0 : pyRound yr = 0 := by
    cases f with
    | yearly => simpa [nPeriods] using hz
    | monthly =>
      have hz12 : pyRound (yr * 12) = 0 := by simpa [nPeriods] using hz
      have h12 : yr * 12 ≤ 1 / 2 :=
        le_half_of_pyRound_eq_zero _ (by linarith) hz12
      exact pyRound_eq_zero_of_lt _ (le_of_lt h0) (by linarith)
  cases t with
  | lump =>
    refine ⟨?_, by simp, fun _ => ⟨?_, ?_, ?_⟩⟩
    · simp [projection, lumpSeries, hy0]
    · simp [projection]
    · simp [projection, hz]
    · simp [projection, hz, round2_zero]
  | sip =>
    have hmt : monthsTotal ⟨.sip, am, yr, a, f⟩ = 0 := by
      cases f <;> simp [monthsTotal] <;> simp_all [nPeriods]
    refine ⟨?_, fun _ => ⟨?_, ?_, ?_⟩, by simp⟩ <;>
      simp [projection, hmt, sipLoop, round2_zero]

/-- Witness for C3 (amended) at the SIP request (50, 0.01 years, 10%, yearly). -/
theorem zero_periods_behavior_witness :
    ((0 : ℝ) < (⟨.sip, 50, 0.01, 0.1, .yearly⟩ : ProjectionRequest).years
      ∧ nPeriods ⟨.sip, 50, 0.01, 0.1, .yearly⟩ = 0)
  ∧ ((projection ⟨.sip, 50, 0.01, 0.1, .yearly⟩).series = []
  ∧ ((⟨.sip, 50, 0.01, 0.1, .yearly⟩ : ProjectionRequest).type = .sip →
      (projection ⟨.sip, 50, 0.01, 0.1, .yearly⟩).total_invested = 0
      ∧ (projection ⟨.sip, 50, 0.01, 0.1, .yearly⟩).final_value = 0
      ∧ (projection ⟨.sip, 50, 0.01, 0.1, .yearly⟩).profit = 0)
  ∧ ((⟨.sip, 50, 0.01, 0.1, .yearly⟩ : ProjectionRequest).type = .lump →
      (projection ⟨.sip, 50, 0.01, 0.1, .yearly⟩).total_invested = round2 50
      ∧ (projection ⟨.sip, 50, 0.01, 0.1, .yearly⟩).final_value = round2 50
      ∧ (projection ⟨.sip, 50, 0.01, 0.1, .yearly⟩).profit = 0)) :=
  have hz : nPeriods ⟨.sip, 50, 0.01, 0.1, .yearly⟩ = 0 := by
    simp only [nPeriods]
    exact pyRound_eq_zero_of_lt _ (by norm_num) (by norm_num)
  ⟨⟨by norm_num, hz⟩,
    zero_periods_behavior ⟨.sip, 50, 0.01, 0.1, .yearly⟩ (by norm_num) hz⟩

/-- C3 (counterexample): the lump-sum request (1000, 0.02 years, 10%, monthly)
resolves to `n = round(0.24) = 0` periods and an empty series, yet the
response has `total_invested = final_value = 1000`, not 0 as the claim
states. -/
theorem zero_periods_lump_counterexample :
    nPeriods ⟨.lump, 1000, 0.02, 0.1, .monthly⟩ = 0
  ∧ (projection ⟨.lump, 1000, 0.02, 0.1, .monthly⟩).series = []
  ∧ (projection ⟨.lump, 1000, 0.02, 0.1, .monthly⟩).total_invested = 1000
  ∧ (projection ⟨.lump, 1000, 0.02, 0.1, .monthly⟩).final_value = 1000
  ∧ (1000 : ℝ) ≠ 0 := by
  have hz : nPeriods ⟨.lump, 1000, 0.02, 0.1, .monthly⟩ = 0 := by
    simp only [nPeriods]
    exact pyRound_eq_zero_of_lt _ (by norm_num) (by norm_num)
  have hy : pyRound (0.02 : ℝ) = 0 :=
    pyRound_eq_zero_of_lt _ (by norm_num) (by norm_num)
  have hr : round2 (1000 : ℝ) = 1000 := by
    rw [round2_of_int _ 100000 (by norm_num)]
    norm_num
  obtain ⟨hti, hfv, -, hser⟩ :=
    projection_lump_fields ⟨.lump, 1000, 0.02, 0.1, .monthly⟩ rfl
  refine ⟨hz, ?_, ?_, ?_, by norm_num⟩
  · rw [hser]
    simp [lumpSeries, hy]
  · rw [hti]
    exact hr
  · rw [hfv, hz]
    simpa using hr

/-- C6 (amended): the code's rate conversion (main.py line 167) carries no
`1 + a < 0` guard and never produces a DomainError; for every request passing
the validated range `-0.99 ≤ a ≤ 10` we have `0 < 1 + a`, so the guard
condition the spec describes is unreachable there, and the spec's guarded
RateConverter agrees with the code's unguarded monthly rate. -/
theorem rate_guard_unreachable (req : ProjectionRequest) (h : req.Valid) :
    0 < 1 + req.cagr
  ∧ rateConverterSpec req.cagr 12 = .ok (monthlyRate req.cagr) := by
  obtain ⟨-, -, -, hc, -⟩ := h
  refine ⟨by linarith, ?_⟩
  rw [rateConverterSpec, if_neg (by push_neg; linarith)]
  norm_num [monthlyRate]

/-- Witness for C6 (amended) at the request (lump, 1000, 5 years, 10%, monthly). -/
theorem rate_guard_unreachable_witness :
    (⟨.lump, 1000, 5, 0.1, .monthly⟩ : ProjectionRequest).Valid
  ∧ ((0 : ℝ) < 1 + (⟨.lump, 1000, 5, 0.1, .monthly⟩ : ProjectionRequest).cagr
  ∧ rateConverterSpec (⟨.lump, 1000, 5, 0.1, .monthly⟩ : ProjectionRequest).cagr 12
      = .ok (monthlyRate (⟨.lump, 1000, 5, 0.1, .monthly⟩ : ProjectionRequest).cagr)) :=
  have hv : (⟨.lump, 1000, 5, 0.1, .monthly⟩ : ProjectionRequest).Valid := by
    refine ⟨by norm_num, by norm_num, by norm_num, by norm_num, by norm_num⟩
  ⟨hv, rate_guard_unreachable ⟨.lump, 1000, 5, 0.1, .monthly⟩ hv⟩

/-- C6 (counterexample): at annual rate `a = -2` (so `1 + a < 0`) the spec's
guarded RateConverter fails with a DomainError, but the code does not: the
rate conversion of main.py line 167 raises nothing and yields a complex-typed
rate (CPython returns the principal-branch complex power for a negative base),
and the failure the handler then actually produces is a pydantic
ValidationError when the complex-typed year-1 series value reaches the float
field of `ProjectionPoint` on line 188 — not a DomainError. -/
theorem rate_guard_counterexample :
    (1 : ℝ) + (-2) < 0
  ∧ rateConverterSpec (-2) 12 = .error .domainError
  ∧ (lineRate (-2)).isComplexTyped = true
  ∧ pydanticFloatField
      (lumpPointValue 100 ((lineRate (-2)).addFloat 1) (1 * 12))
      = .error .validation := by
  have hneg : ¬ (0 : ℝ) ≤ 1 + (-2) := by norm_num
  refine ⟨by norm_num, ?_, ?_, ?_⟩
  · rw [rateConverterSpec, if_pos (by norm_num)]
  · rw [lineRate, pyPowFrac, if_neg hneg]
    rfl
  · rw [lineRate, pyPowFrac, if_neg hneg]
    rfl

/-- C10: the series points carry the full-precision invested/value state — no
2-digit rounding is ever applied to them — so the last series value can differ
from the rounded `final_value`: at (lump, 100, 2 years, 15.5%, yearly) the last
point holds 133.4025 while `final_value` is 133.4.  Only `total_invested`,
`final_value` and `profit` pass through `round2`. -/
theorem series_full_precision :
    (∀ req : ProjectionRequest, (projection req).series = rawSeries req)
  ∧ (projection ⟨.lump, 100, 2, 0.155, .yearly⟩).series.getLast?
      = some ⟨2, 100, 133.4025⟩
  ∧ (projection ⟨.lump, 100, 2, 0.155, .yearly⟩).final_value = 133.4
  ∧ (133.4025 : ℝ) ≠ 133.4 := by
  have h2 : pyRound (2 : ℝ) = 2 := pyRound_eq_int _ 2 (by norm_num)
  obtain ⟨-, hfv, -, hser⟩ := projection_lump_fields ⟨.lump, 100, 2, 0.155, .yearly⟩ rfl
  refine ⟨?_, ?_, ?_, by norm_num⟩
  · intro req
    obtain ⟨t, am, yr, a, f⟩ := req
    cases t <;> simp [projection, rawSeries]
  · rw [hser]
    have hl : (lumpSeries ⟨.lump, 100, 2, 0.155, .yearly⟩).getLast?
        = some ⟨((1 + 1 : ℕ) : ℤ), (100 : ℝ),
            (100 : ℝ) * (1 + perRate ⟨.lump, 100, 2, 0.155, .yearly⟩)
              ^ ((1 + 1) * labelDiv Freq.yearly)⟩ := by
      simp only [lumpSeries, h2]
      rfl
    rw [hl]
    simp only [perRate, labelDiv, Option.some.injEq, ProjectionPoint.mk.injEq]
    refine ⟨by norm_num, by norm_num, by norm_num⟩
  · rw [hfv]
    simp only [nPeriods, perRate, h2]
    have hval : (100 : ℝ) * (1 + 0.155) ^ (2 : ℤ) = 133.4025 := by
      norm_num
    rw [hval, round2_of_pyRound _ 13340
      (pyRound_of_lt _ 13340 (floor_eq_of_bounds _ 13340 (by norm_num) (by norm_num))
        (by norm_num))]
    norm_num

end CryptoSip
